import Mathlib

/-!
Verification of the pomo-rank wearable-integration subsystem (`src/lib/oura.ts`
and the focus-signal engine in `src/components/DashboardApp.tsx`).

Shallow embedding conventions:
* JavaScript finite numbers are modelled by `ℚ`; where `NaN` can occur the
  value is an `Option ℚ` with `none` standing for `NaN`.
* Timestamps (`new Date(s).getTime()`, `Date.now()`) are modelled by `ℤ`
  milliseconds; an unparsable date (`NaN` time value) is `none : Option ℤ`.
* Database reads and vendor fetches are passed in as explicit arguments
  (`Except` for fallible calls); a thrown exception is an `Except.error`.
-/

namespace PomoRank.Oura

/-- `TOKEN_EXPIRY_BUFFER_MS = 90 * 1000` from `src/lib/oura.ts`. -/
def TOKEN_EXPIRY_BUFFER_MS : Int := 90 * 1000

/-- `MAX_PAGES = 25` from `src/lib/oura.ts`. -/
def MAX_PAGES : Nat := 25

/-- A stored `oura_connections` row.  `expires_at_ms` is the result of
`new Date(conn.expires_at).getTime()`: `none` when the stored string does not
parse to a finite timestamp. -/
structure OuraConnectionRow where
  access_token : String
  refresh_token : String
  expires_at_ms : Option Int
deriving DecidableEq, Repr

/-- The observable behaviour of `getValidAccessToken`: it either returns
`null` (no stored credential), returns the stored access token directly
(no network call, no credential write), or delegates to
`refreshAccessToken` (the only path that performs a network request). -/
inductive TokenAction where
  | noCredential
  | useStored (token : String)
  | refresh (refreshToken : String)
deriving DecidableEq, Repr

/-- `getValidAccessToken` from `src/lib/oura.ts` (lines 270-284), as a pure
function of the stored credential and the current time.  The source:
no row → `null`; non-finite parsed expiry → return `conn.access_token`;
`expiresAtMs - TOKEN_EXPIRY_BUFFER_MS > Date.now()` → return
`conn.access_token`; otherwise → `refreshAccessToken(userId, conn.refresh_token)`. -/
def getValidAccessToken (conn : Option OuraConnectionRow) (now : Int) : TokenAction :=
  match conn with
  | none => .noCredential
  | some c =>
    match c.expires_at_ms with
    | none => .useStored c.access_token
    | some expiresAtMs =>
      if expiresAtMs - TOKEN_EXPIRY_BUFFER_MS > now then .useStored c.access_token
      else .refresh c.refresh_token

/-! ## Focus-signal threshold (`src/components/DashboardApp.tsx`, lines 1150-1156) -/

/-- `const drift = ouraMetrics.profile.typicalDriftBpm ?? 8;
    const thresholdDelta = Math.max(6, drift + 2);
    const threshold = effectiveBaseline + thresholdDelta;` -/
def thresholdOf (effectiveBaseline : ℚ) (typicalDriftBpm : Option ℚ) : ℚ :=
  let drift := typicalDriftBpm.getD 8
  let thresholdDelta := max 6 (drift + 2)
  effectiveBaseline + thresholdDelta

/-- `const above = rolling > threshold;` -/
def isAboveThreshold (rolling effectiveBaseline : ℚ) (typicalDriftBpm : Option ℚ) : Bool :=
  rolling > thresholdOf effectiveBaseline typicalDriftBpm

/-- `const effectiveBaseline = baselineNow ?? ouraMetrics.profile.baselineMedianBpm ?? rolling;` -/
def effectiveBaselineOf (baselineNow profileBaseline : Option ℚ) (rolling : ℚ) : ℚ :=
  baselineNow.getD (profileBaseline.getD rolling)

/-! ## Paginated collection fetching (`src/lib/oura.ts`, lines 286-336) -/

/-- One vendor response page: `{ data?: T[]; next_token?: string | null }`.
`data = none` models an absent `data` field (the code substitutes `[]` via
`payload.data ?? []`).  `next_token = none` models an absent or `null`
continuation token; note `some ""` is a present, non-null token. -/
structure Page (α : Type) where
  data : Option (List α)
  next_token : Option String
deriving Repr

/-- `nextToken = payload.next_token || null`: JavaScript `||` also maps the
falsy empty string to `null`. -/
def coerceToken : Option String → Option String
  | none => none
  | some s => if s = "" then none else some s

/-- The loop body of `fetchOuraCollectionPaginated`, fuelled.  `vendor n` is
the response to the `n`-th request (1-indexed); `page` is the count of pages
fetched so far; `acc` the accumulated `all` array.  Returns the accumulated
data and the total number of pages fetched.  The loop repeats
`while (nextToken && page < MAX_PAGES)`. -/
def paginateGo {α : Type} (vendor : Nat → Page α) : Nat → Nat → List α → List α × Nat
  | 0, page, acc => (acc, page)
  | fuel + 1, page, acc =>
    if (coerceToken (vendor (page + 1)).next_token).isSome ∧ page + 1 < MAX_PAGES then
      paginateGo vendor fuel (page + 1) (acc ++ (vendor (page + 1)).data.getD [])
    else (acc ++ (vendor (page + 1)).data.getD [], page + 1)

/-- `fetchOuraCollectionPaginated` from `src/lib/oura.ts`: the do-while loop
starting at `page = 0`, `all = []`.  `MAX_PAGES` fuel suffices because the
loop continues only while the updated page count is below `MAX_PAGES`. -/
def fetchOuraCollectionPaginated {α : Type} (vendor : Nat → Page α) : List α × Nat :=
  paginateGo vendor MAX_PAGES 0 []

/-- Concatenation of the data arrays of pages `start, start+1, …, start+n-1`
in fetch order (each absent `data` contributing `[]`). -/
def pagesSlice {α : Type} (vendor : Nat → Page α) (start : Nat) : Nat → List α
  | 0 => []
  | n + 1 => (vendor start).data.getD [] ++ pagesSlice vendor (start + 1) n

/-! ## Dynamic vendor rows (`Record<string, unknown>`) -/

/-- A JavaScript value as it appears in a vendor row.  `num` is a finite
number; `nan` a non-finite number (`NaN`/`±Infinity`); `str s numVal`
carries the string together with the value of JavaScript `Number(s)` when
that is finite (`none` when `Number(s)` is `NaN`); `null` stands for `null`
or any other non-number, non-string value. -/
inductive JVal where
  | num (q : ℚ)
  | nan
  | str (s : String) (numVal : Option ℚ)
  | null
deriving DecidableEq, Repr

/-- A `Record<string, unknown>` row: first binding for a key wins. -/
def Row : Type := List (String × JVal)

/-- `row[key]`: `none` models an absent key (`undefined`). -/
def rowGet (row : Row) (key : String) : Option JVal :=
  (row.find? (fun p => p.1 = key)).map (fun p => p.2)

/-- `asNumber` from `src/lib/oura.ts` (lines 342-349): a finite number is
itself; a string is its `Number(...)` parse when finite; everything else is
`null`. -/
def asNumber : Option JVal → Option ℚ
  | some (.num q) => some q
  | some (.str _ numVal) => numVal
  | _ => none

/-! ## Duration normalization and the daily-stress summary
(`src/lib/oura.ts`, lines 372-517) -/

/-- `Math.round(x)` on a rational: round half toward positive infinity,
exactly JavaScript's `Math.round` on finite values.  Mathlib's `round` is
`⌊x + 1/2⌋`, which matches. -/
def jsRound (x : ℚ) : Int := round x

/-- `Math.round(x * 10) / 10`: rounding to one decimal place. -/
def round1 (x : ℚ) : ℚ := (jsRound (x * 10) : ℚ) / 10

/-- `toHours` (lines 372-375): minutes to hours, one decimal; non-positive
(or missing) input yields `0`. -/
def toHours (minutes : ℚ) : ℚ :=
  if minutes ≤ 0 then 0 else round1 (minutes / 60)

/-- `toHoursFromSeconds` (lines 377-380). -/
def toHoursFromSeconds (seconds : ℚ) : ℚ :=
  if seconds ≤ 0 then 0 else round1 (seconds / 3600)

/-- The `unitHint` argument of `normalizeDurationToHours`. -/
inductive DurationUnit where
  | minutes
  | seconds
  | hours
deriving DecidableEq, Repr

/-- `normalizeDurationToHours` (lines 382-395).  The raw value here is never
`null`/`NaN` (callers guard with `asNumber`), so `!raw || raw <= 0`
collapses to `raw ≤ 0`. -/
def normalizeDurationToHours (raw : ℚ) (unitHint : Option DurationUnit) : ℚ :=
  if raw ≤ 0 then 0
  else
    match unitHint with
    | some .minutes => toHours raw
    | some .seconds => toHoursFromSeconds raw
    | some .hours => round1 raw
    | none =>
      if raw ≥ 3600 then toHoursFromSeconds raw
      else if raw > 24 then toHours raw
      else round1 raw

/-- The inner loops of `pickDurationHours`: the first key whose row value
`asNumber`s to a number. -/
def firstNumIn (row : Row) : List String → Option ℚ
  | [] => none
  | k :: rest =>
    match asNumber (rowGet row k) with
    | some v => some v
    | none => firstNumIn row rest

/-- `pickDurationHours` (lines 397-418): try the minutes keys, then the
seconds keys, then the hours keys, then the fallback keys (unit heuristic);
`0` when nothing matches. -/
def pickDurationHours (row : Row)
    (minutesKeys secondsKeys hoursKeys fallbackKeys : List String) : ℚ :=
  match firstNumIn row minutesKeys with
  | some v => normalizeDurationToHours v (some .minutes)
  | none =>
    match firstNumIn row secondsKeys with
    | some v => normalizeDurationToHours v (some .seconds)
    | none =>
      match firstNumIn row hoursKeys with
      | some v => normalizeDurationToHours v (some .hours)
      | none =>
        match firstNumIn row fallbackKeys with
        | some v => normalizeDurationToHours v none
        | none => 0

/-- Char-list prefix test (JavaScript `startsWith` on code points). -/
def leadsWith : List Char → List Char → Bool
  | [], _ => true
  | _ :: _, [] => false
  | a :: as, b :: bs => a = b && leadsWith as bs

/-- Char-list substring test: JavaScript `hay.includes(needle)`. -/
def containsSub (needle : List Char) : List Char → Bool
  | [] => leadsWith needle []
  | c :: rest => leadsWith needle (c :: rest) || containsSub needle rest

/-- `hay.includes(needle)` on strings. -/
def strIncludes (hay needle : String) : Bool :=
  containsSub needle.data hay.data

/-- ASCII whitespace stripped by `String.prototype.trim` (the vendor labels
are ASCII, so the Unicode space classes are irrelevant here). -/
def isJsSpace (c : Char) : Bool :=
  c = ' ' || c = '\t' || c = '\n' || c = '\r' || c = '\x0b' || c = '\x0c'

/-- `value.trim()` on the character list. -/
def trimChars (l : List Char) : List Char :=
  ((l.dropWhile isJsSpace).reverse.dropWhile isJsSpace).reverse

/-- `value.trim()`. -/
def jsTrim (s : String) : String := String.mk (trimChars s.data)

/-- `c.toLowerCase()` for one ASCII character. -/
def asciiLower (c : Char) : Char :=
  if c.toNat ≥ 65 ∧ c.toNat ≤ 90 then Char.ofNat (c.toNat + 32) else c

/-- `s.toLowerCase()` (ASCII). -/
def jsToLower (s : String) : String := String.mk (s.data.map asciiLower)

/-- `c.toUpperCase()` for one ASCII character. -/
def asciiUpper (c : Char) : Char :=
  if c.toNat ≥ 97 ∧ c.toNat ≤ 122 then Char.ofNat (c.toNat - 32) else c

/-- `normalized.charAt(0).toUpperCase() + normalized.slice(1)`. -/
def capitalizeFirst (s : String) : String :=
  match s.data with
  | [] => ""
  | c :: cs => String.mk (asciiUpper c :: cs)

/-- `normalizeStressStateLabel` (lines 456-464). -/
def normalizeStressStateLabel (value : String) : Option String :=
  let normalized := jsToLower (jsTrim value)
  if normalized = "" then none
  else if strIncludes normalized "restore" then some "Restored"
  else if strIncludes normalized "relax" then some "Relaxed"
  else if strIncludes normalized "engag" then some "Engaged"
  else if strIncludes normalized "stress" then some "Stressed"
  else some (capitalizeFirst normalized)

/-- The stress bucket payload `OuraStressBuckets`.  The source stores
`date: String(row.day ?? row.date ?? "") || null`; we keep the selected raw
value rather than re-implementing JavaScript stringification, mapping the
falsy empty-string selection to `none` — no claim inspects the stringified
form. -/
structure OuraStressBuckets where
  date : Option JVal
  stressedHours : ℚ
  engagedHours : ℚ
  relaxedHours : ℚ
  restoredHours : ℚ
deriving DecidableEq, Repr

/-- `row.day ?? row.date ?? ""`: nullish-coalescing skips `null` and absent
keys only. -/
def rowDateVal (row : Row) : JVal :=
  match rowGet row "day" with
  | some .null | none =>
    (match rowGet row "date" with
     | some .null | none => .str "" (some 0)
     | some v => v)
  | some v => v

/-- `String(row.day ?? row.date ?? "") || null`: only the empty string is
falsy among the stringified selections. -/
def dateField (row : Row) : Option JVal :=
  match rowDateVal row with
  | .str "" _ => none
  | v => some v

/-- The `typeof x === "string" ? normalizeStressStateLabel(x) : null`
pattern applied to one key. -/
def stateFromKey (row : Row) (key : String) : Option String :=
  match rowGet row key with
  | some (.str s _) => normalizeStressStateLabel s
  | _ => none

/-- The `restoredHours` computation of `summarizeStressToday`
(lines 469-474), with the exact key lists of the source. -/
def restoredHoursOf (row : Row) : ℚ :=
  pickDurationHours row
    ["restorative_minutes", "recovery_minutes", "restored_minutes"]
    ["restorative_seconds", "recovery_seconds", "restored_seconds"]
    ["restorative_hours", "recovery_hours", "restored_hours"]
    ["restorative", "recovery", "restored"]

/-- The `relaxedHours` computation (lines 475-480). -/
def relaxedHoursOf (row : Row) : ℚ :=
  pickDurationHours row
    ["low_stress_minutes", "relaxed_minutes", "stress_low"]
    ["low_stress_seconds", "relaxed_seconds"]
    ["low_stress_hours", "relaxed_hours"]
    ["relaxed"]

/-- The `engagedHours` computation (lines 481-486). -/
def engagedHoursOf (row : Row) : ℚ :=
  pickDurationHours row
    ["medium_stress_minutes", "engaged_minutes", "stress_medium"]
    ["medium_stress_seconds", "engaged_seconds"]
    ["medium_stress_hours", "engaged_hours"]
    ["engaged"]

/-- The `stressedHours` computation (lines 487-492). -/
def stressedHoursOf (row : Row) : ℚ :=
  pickDurationHours row
    ["high_stress_minutes", "stressed_minutes", "stress_high"]
    ["high_stress_seconds", "stressed_seconds"]
    ["high_stress_hours", "stressed_hours"]
    ["stressed"]

/-- `directState` (lines 494-496): normalize `row.stress_state`, falling
back (via `||`) to `row.state`. -/
def directStateOf (row : Row) : Option String :=
  (stateFromKey row "stress_state").orElse (fun _ => stateFromKey row "state")

/-- `summarizeStressToday` (lines 466-517). -/
def summarizeStressToday (row : Option Row) : Option OuraStressBuckets :=
  match row with
  | none => none
  | some row =>
    if directStateOf row = some "Stressed" ∧ stressedHoursOf row = 0 then
      some { date := dateField row, stressedHours := 1/10,
             engagedHours := engagedHoursOf row, relaxedHours := relaxedHoursOf row,
             restoredHours := restoredHoursOf row }
    else
      some { date := dateField row, stressedHours := stressedHoursOf row,
             engagedHours := engagedHoursOf row, relaxedHours := relaxedHoursOf row,
             restoredHours := restoredHoursOf row }

/-! ## Focus profiles and telemetry (`src/lib/oura.ts`, lines 420-454 and 675-735) -/

/-- `OuraFocusProfile`: the learned per-user baseline/drift state.
`sampleCount` is a JavaScript number (`Number(data.sample_count) || 0`), so
it is modelled as `ℚ`. -/
structure OuraFocusProfile where
  baselineMedianBpm : Option ℚ
  typicalDriftBpm : Option ℚ
  sampleCount : ℚ
deriving DecidableEq, Repr

/-- `defaultProfile()` (lines 420-426). -/
def defaultProfile : OuraFocusProfile :=
  { baselineMedianBpm := none, typicalDriftBpm := none, sampleCount := 0 }

/-- A stored `oura_focus_profiles` row; each field is the result of the
database read coerced by `Number(...)` (`none` for `NaN`). -/
structure OuraFocusProfileRow where
  baseline_median_bpm : Option ℚ
  typical_drift_bpm : Option ℚ
  sample_count : Option ℚ
deriving DecidableEq, Repr

/-- `Number(value) || null`: `NaN` and `0` become `null`. -/
def numOrNull (x : Option ℚ) : Option ℚ :=
  match x with
  | none => none
  | some q => if q = 0 then none else some q

/-- `Number(value) || 0`: `NaN` becomes `0`. -/
def numOrZero (x : Option ℚ) : ℚ :=
  match x with
  | none => 0
  | some q => q

/-- A supabase error surface: `{ code?: string; message?: string }`. -/
structure DbError where
  code : String
  message : String
deriving DecidableEq, Repr

/-- `hasMissingTable` (lines 428-433): PostgREST code `42P01` or a message
mentioning the table name. -/
def hasMissingTable (e : DbError) (tableName : String) : Bool :=
  e.code = "42P01" || strIncludes e.message tableName

/-- `getFocusProfile` (lines 435-454) as a function of the database read
result: a missing-table error and a missing row both degrade to the default
profile; any other error is rethrown. -/
def getFocusProfile (dbRes : Except DbError (Option OuraFocusProfileRow)) :
    Except DbError OuraFocusProfile :=
  match dbRes with
  | .error e =>
    if hasMissingTable e "oura_focus_profiles" then .ok defaultProfile else .error e
  | .ok none => .ok defaultProfile
  | .ok (some data) =>
    .ok { baselineMedianBpm := numOrNull data.baseline_median_bpm
          typicalDriftBpm := numOrNull data.typical_drift_bpm
          sampleCount := numOrZero data.sample_count }

/-- `FocusTelemetryInput` after the coercions at the top of
`saveFocusTelemetry`: bpm fields are `Number(x)` results (`none` = `NaN`),
timestamps are `new Date(x).getTime()` results (`none` = invalid date). -/
structure FocusTelemetryInput where
  sessionStartedAt_ms : Option Int
  sessionEndedAt_ms : Option Int
  baselineBpm : Option ℚ
  peakRollingBpm : Option ℚ
  avgRollingBpm : Option ℚ
  alertWindows : Option ℚ
deriving DecidableEq, Repr

/-- `Math.max(30, Math.min(220, Number(x) || 0))` (lines 676-678). -/
def clampBpm (x : Option ℚ) : ℚ :=
  max 30 (min 220 (x.getD 0))

/-- The row upserted into `oura_focus_profiles` (lines 715-724); identical
numbers are also returned to the caller (lines 730-734). -/
structure FocusProfileUpsert where
  baseline_median_bpm : ℚ
  typical_drift_bpm : ℚ
  sample_count : ℚ
deriving DecidableEq, Repr

/-- The profile-update arithmetic of `saveFocusTelemetry` (lines 706-724):
session drift, nullish fallbacks for a fresh profile, weight `0.2` after the
first sample else `1`, one-decimal rounding, and the 4 bpm drift floor
applied at the upsert. -/
def updateFocusProfile (existing : OuraFocusProfile) (baseline peak : ℚ) :
    FocusProfileUpsert :=
  let sessionDrift := max 0 (peak - baseline)
  let existingBaseline := existing.baselineMedianBpm.getD baseline
  let existingDrift := existing.typicalDriftBpm.getD (max 6 sessionDrift)
  let weight : ℚ := if existing.sampleCount > 0 then 2/10 else 1
  let nextBaseline := round1 (existingBaseline * (1 - weight) + baseline * weight)
  let nextDrift := round1 (existingDrift * (1 - weight) + sessionDrift * weight)
  { baseline_median_bpm := nextBaseline
    typical_drift_bpm := max 4 nextDrift
    sample_count := existing.sampleCount + 1 }

/-- The telemetry audit row inserted into `oura_focus_telemetry`
(lines 691-699). -/
structure FocusTelemetryRow where
  session_started_at : Int
  session_ended_at : Int
  baseline_bpm : ℚ
  peak_rolling_bpm : ℚ
  avg_rolling_bpm : ℚ
  alert_windows : Int
deriving DecidableEq, Repr

/-- `saveFocusTelemetry` (lines 675-735) given the existing profile read
from the store.  An `Except.error` is a thrown rejection; `Except.ok`
carries the inserted telemetry row and the profile upsert.  The source
clamps each bpm into `[30, 220]` (so the `!baseline || !peak || !average`
throw is unreachable), rejects only unparsable timestamps, and performs no
ordering check between start and end. -/
def saveFocusTelemetry (existing : OuraFocusProfile) (input : FocusTelemetryInput) :
    Except String (FocusTelemetryRow × FocusProfileUpsert) :=
  let baseline := clampBpm input.baselineBpm
  let peak := clampBpm input.peakRollingBpm
  let average := clampBpm input.avgRollingBpm
  let alerts : Int := max 0 ⌊input.alertWindows.getD 0⌋
  if baseline = 0 ∨ peak = 0 ∨ average = 0 then
    .error "Invalid focus telemetry payload"
  else
    match input.sessionStartedAt_ms, input.sessionEndedAt_ms with
    | some startedAt, some endedAt =>
      .ok ({ session_started_at := startedAt
             session_ended_at := endedAt
             baseline_bpm := baseline
             peak_rolling_bpm := peak
             avg_rolling_bpm := average
             alert_windows := alerts },
           updateFocusProfile existing baseline peak)
    | _, _ => .error "Invalid session timestamps"

/-- State-passing form of `saveFocusTelemetry`: the stored profile is
mutated only on the success path (all throws happen before the upsert), so
a rejection leaves the stored profile untouched. -/
def runSaveFocusTelemetry (store : OuraFocusProfile) (input : FocusTelemetryInput) :
    OuraFocusProfile × Except String FocusProfileUpsert :=
  match saveFocusTelemetry store input with
  | .error e => (store, .error e)
  | .ok (_, upsert) =>
    ({ baselineMedianBpm := some upsert.baseline_median_bpm
       typicalDriftBpm := some upsert.typical_drift_bpm
       sampleCount := upsert.sample_count }, .ok upsert)

/-- The `oura_focus_profiles` row produced by the upsert, as later read
back by `getFocusProfile`. -/
def profileRowOfUpsert (u : FocusProfileUpsert) : OuraFocusProfileRow :=
  { baseline_median_bpm := some u.baseline_median_bpm
    typical_drift_bpm := some u.typical_drift_bpm
    sample_count := some u.sample_count }

/-! ## Biofeedback aggregation (`src/lib/oura.ts`, lines 579-673) -/

/-- A mapped heart-rate sample. -/
structure OuraHeartRateSample where
  timestamp : String
  bpm : ℚ
deriving DecidableEq, Repr

/-- `extractBpm` (lines 360-362): `asNumber(row.bpm) ?? asNumber(row.heart_rate)
?? asNumber(row.hr)` — nullish coalescing keeps a legitimate `0`. -/
def extractBpm (row : Row) : Option ℚ :=
  (asNumber (rowGet row "bpm")).orElse fun _ =>
    (asNumber (rowGet row "heart_rate")).orElse fun _ =>
      asNumber (rowGet row "hr")

/-- One disjunct of `extractTimestamp`: a truthy (non-empty) string value. -/
def truthyStr (v : Option JVal) : Option String :=
  match v with
  | some (.str s _) => if s = "" then none else some s
  | _ => none

/-- `extractTimestamp` (lines 351-358): the first of `timestamp`,
`datetime`, `ts` holding a non-empty string; `candidate || null`. -/
def extractTimestamp (row : Row) : Option String :=
  (truthyStr (rowGet row "timestamp")).orElse fun _ =>
    (truthyStr (rowGet row "datetime")).orElse fun _ =>
      truthyStr (rowGet row "ts")

/-- The sample mapper of `getOuraBiofeedback` (lines 641-648):
`if (!bpm || !timestamp) return null` drops missing and zero bpm. -/
def mapSample (row : Row) : Option OuraHeartRateSample :=
  match extractBpm row, extractTimestamp row with
  | some bpm, some ts => if bpm = 0 then none else some { timestamp := ts, bpm := bpm }
  | _, _ => none

/-- Stable insertion step for the ascending timestamp sort.  An element is
placed after every earlier element whose timestamp is `≤` its own, matching
the stable `Array.prototype.sort` with the `localeCompare` comparator
(lexicographic on these ASCII ISO timestamps). -/
def insertByTime (x : OuraHeartRateSample) : List OuraHeartRateSample → List OuraHeartRateSample
  | [] => [x]
  | y :: ys => if x.timestamp < y.timestamp then x :: y :: ys else y :: insertByTime x ys

/-- `samples.sort((a, b) => a.timestamp.localeCompare(b.timestamp))`. -/
def sortByTime (l : List OuraHeartRateSample) : List OuraHeartRateSample :=
  l.foldl (fun acc x => insertByTime x acc) []

/-- The `OuraBiofeedback` payload. -/
structure OuraBiofeedback where
  connected : Bool
  heartRateSamples : List OuraHeartRateSample
  latestHeartRate : Option ℚ
  latestHeartRateTime : Option String
  stressToday : Option OuraStressBuckets
  profile : OuraFocusProfile
  warning : Option String
deriving DecidableEq, Repr

/-- `getOuraBiofeedback` (lines 579-673) as a function of the settled
results of its effects: `tokenRes` is the outcome of `getValidAccessToken`
(`Except.error` = it threw), `profileDb` the raw `oura_focus_profiles`
read feeding `getFocusProfile`, `hrRes` the outcome of
`fetchHeartRateWithFallback` and `stressRes` of the `daily_stress` fetch
(both carry their own `.catch(… => ({data: []}))`, modelled by the
error-to-empty matches).  The returned `Bool` records whether
`revokeOuraConnection` was invoked.  `getFocusProfile` sits inside
`Promise.all` with no catch, so its error rejects the whole call
(`Except.error` in the result). -/
def getOuraBiofeedback
    (tokenRes : Except String (Option String))
    (profileDb : Except DbError (Option OuraFocusProfileRow))
    (hrRes : Except String (List Row))
    (stressRes : Except String (List Row)) :
    Bool × Except DbError OuraBiofeedback :=
  match tokenRes with
  | .error _ =>
    (true, .ok { connected := false, heartRateSamples := [], latestHeartRate := none,
                 latestHeartRateTime := none, stressToday := none,
                 profile := defaultProfile,
                 warning := some "Token refresh failed. Please reconnect Oura." })
  | .ok none =>
    (false, .ok { connected := false, heartRateSamples := [], latestHeartRate := none,
                  latestHeartRateTime := none, stressToday := none,
                  profile := defaultProfile, warning := none })
  | .ok (some _) =>
    match getFocusProfile profileDb with
    | .error e => (false, .error e)
    | .ok profile =>
      let hrRows := match hrRes with | .error _ => [] | .ok rows => rows
      let stressRows := match stressRes with | .error _ => [] | .ok rows => rows
      let samples := sortByTime (hrRows.filterMap mapSample)
      let latest := samples.getLast?
      (false, .ok { connected := true
                    heartRateSamples := samples
                    latestHeartRate := latest.map (fun s => s.bpm)
                    latestHeartRateTime := latest.map (fun s => s.timestamp)
                    stressToday := summarizeStressToday stressRows.head?
                    profile := profile
                    warning := none })

/-! ## Focus-signal engine step
(`src/components/DashboardApp.tsx`, lines 1158-1187) -/

/-- `type FocusSignal = "steady" | "slow_down" | "take_break"`. -/
inductive FocusSignal where
  | steady
  | slow_down
  | take_break
deriving DecidableEq, Repr

/-- The engine's mutable state: `running` abbreviates
`running && mode === "focus" && focusSessionStartedAtRef.current` (the
`isFocusRunning` guard), `nextRecoveryAlertAt` is the cooldown ref
(initially `0`), `alertWindows` the telemetry counter ref. -/
structure EngineState where
  running : Bool
  consecutiveHighWindows : Nat
  focusSignal : FocusSignal
  nextRecoveryAlertAt : Int
  alertWindows : Nat
deriving DecidableEq, Repr

/-- One classified rolling window applied to the engine
(lines 1158-1186).  `above` is the threshold comparison for this window and
`now` is `Date.now()`.  Returns the updated state together with whether the
auto-pause (`setRunning(false)` inside the `take_break` branch) fired.
Outside an active run the counter resets and the signal shows
`slow_down`/`steady` without auto-pause; inside a run an elevated window
increments the counter (first window → `slow_down`; second and later, when
past the cooldown → `take_break`, auto-pause, cooldown pushed 10 minutes
out), and a non-elevated window resets counter and signal. -/
def engineStep (s : EngineState) (above : Bool) (now : Int) : EngineState × Bool :=
  if !s.running then
    ({ s with consecutiveHighWindows := 0
              focusSignal := if above then .slow_down else .steady }, false)
  else if above then
    let next := s.consecutiveHighWindows + 1
    let s1 := { s with consecutiveHighWindows := next
                       alertWindows := s.alertWindows + 1 }
    let s2 := if next = 1 then { s1 with focusSignal := .slow_down } else s1
    if next ≥ 2 ∧ now > s.nextRecoveryAlertAt then
      ({ s2 with focusSignal := .take_break
                 running := false
                 nextRecoveryAlertAt := now + 10 * 60 * 1000 }, true)
    else (s2, false)
  else
    ({ s with consecutiveHighWindows := 0, focusSignal := .steady }, false)

/-! ## Single-flight token refresh (`src/lib/oura.ts`, lines 231-263)

`refreshAccessToken` runs on the Node event loop: the `refreshLocks.get`
check, the creation of the refresh promise and the `refreshLocks.set` all
execute in one synchronous section (no `await` separates them), and the
`finally { refreshLocks.delete(userId) }` runs in its own atomic turn when
the operation settles.  The map dynamics are therefore faithfully captured
by a sequence of two kinds of atomic events: a caller invoking
`refreshAccessToken` for a user, and the in-flight operation for a user
settling (fulfilling or rejecting). -/

/-- The shared state: `refreshLocks` as an association list (key = user id,
value = an identifier of the in-flight refresh operation), a counter
generating operation identifiers, and the number of vendor refresh requests
issued so far. -/
structure RefreshLocksState where
  locks : List (String × Nat)
  nextOp : Nat
  netCalls : Nat
deriving DecidableEq, Repr

/-- The empty initial state (`const refreshLocks = new Map()`). -/
def initialRefreshState : RefreshLocksState :=
  { locks := [], nextOp := 0, netCalls := 0 }

/-- `refreshLocks.get(userId)`. -/
def lookupLock (s : RefreshLocksState) (u : String) : Option Nat :=
  (s.locks.find? (fun p => p.1 = u)).map (fun p => p.2)

/-- A caller entering `refreshAccessToken(userId, …)`: if a refresh is
already in flight for the user the caller attaches to it (returning the
existing operation, no state change); otherwise a fresh operation is
created, one vendor token request is issued, and the lock map gains the
entry.  Returns the operation the caller awaits. -/
def refreshCall (s : RefreshLocksState) (u : String) : RefreshLocksState × Nat :=
  match lookupLock s u with
  | some op => (s, op)
  | none =>
    ({ locks := (u, s.nextOp) :: s.locks
       nextOp := s.nextOp + 1
       netCalls := s.netCalls + 1 }, s.nextOp)

/-- The in-flight operation for `u` settling:
`finally { refreshLocks.delete(userId) }`, which runs on success and on
failure alike. -/
def refreshSettle (s : RefreshLocksState) (u : String) : RefreshLocksState :=
  { s with locks := s.locks.filter (fun p => p.1 ≠ u) }

/-- An atomic event of the refresh subsystem. -/
inductive RefreshEvent where
  | call (u : String)
  | settle (u : String)
deriving DecidableEq, Repr

/-- Run a sequence of events from a state, discarding returned operations. -/
def runRefreshEvents : RefreshLocksState → List RefreshEvent → RefreshLocksState
  | s, [] => s
  | s, .call u :: rest => runRefreshEvents (refreshCall s u).1 rest
  | s, .settle u :: rest => runRefreshEvents (refreshSettle s u) rest

/-- `n` callers for the same user arriving back-to-back with no settlement
in between (the concurrent-burst scenario); collects each caller's awaited
operation. -/
def repeatCalls (s : RefreshLocksState) (u : String) : Nat → RefreshLocksState × List Nat
  | 0 => (s, [])
  | n + 1 =>
    let r := refreshCall s u
    let rest := repeatCalls r.1 u n
    (rest.1, r.2 :: rest.2)

/-- A vendor whose first page carries the present, non-null continuation
token `""` (falsy in JavaScript) and whose second page holds more data. -/
def emptyTokenVendor : Nat → Page Nat := fun n =>
  if n = 1 then { data := some [1, 2], next_token := some "" }
  else { data := some [3], next_token := none }

/-- A vendor serving exactly two pages, the first with a real continuation
token. -/
def twoPageVendor : Nat → Page Nat := fun n =>
  if n < 2 then { data := some [n], next_token := some "t" }
  else { data := some [n], next_token := none }

/-! # Theorems -/

/-- C2 (counterexample): with `baselineMedianBpm = 70`, `typicalDriftBpm = null`
and rolling average 82, the engine's threshold is `70 + max(6, 8 + 2) = 80`,
not `70 + 8 = 78` as the claim computes; the window is still classified as
above (82 > 80). -/
theorem thresholdOf_drift_null_is_80_not_78 :
    thresholdOf 70 none = 80 ∧ ¬ thresholdOf 70 none = 78 ∧
    isAboveThreshold 82 70 none = true := by
  refine ⟨by norm_num [thresholdOf], by norm_num [thresholdOf], ?_⟩
  simp only [isAboveThreshold, decide_eq_true_eq]
  norm_num [thresholdOf]

/-- C2 (amended): the FocusSignalEngine's elevation threshold equals
`effectiveBaseline + max(6, drift + 2)` where `drift` is `typicalDriftBpm`
with nullish fallback 8; "above" holds exactly when the rolling average
strictly exceeds the threshold; for a profile with baseline 70, drift null
and rolling average 82 the threshold is `70 + max(6, 10) = 80` and the
window is classified as above. -/
theorem focusSignal_threshold_formula :
    (∀ b d : ℚ, thresholdOf b (some d) = b + max 6 (d + 2)) ∧
    (∀ b : ℚ, thresholdOf b none = b + max 6 (8 + 2)) ∧
    (∀ (r b : ℚ) (d : Option ℚ), isAboveThreshold r b d = true ↔ r > thresholdOf b d) ∧
    thresholdOf 70 none = 80 ∧ isAboveThreshold 82 70 none = true := by
  refine ⟨fun b d => rfl, fun b => rfl, fun r b d => ?_, by norm_num [thresholdOf], ?_⟩
  · simp [isAboveThreshold]
  · simp only [isAboveThreshold, decide_eq_true_eq]
    norm_num [thresholdOf]

/-- C5: `getValidAccessToken` returns `null` when no credential is stored,
and for every stored credential whose parsed expiry minus the 90-second
buffer is strictly later than now it returns the stored access token
directly — the `useStored` action, which performs no network call and no
credential write. -/
theorem getValidAccessToken_contract :
    (∀ now : Int, getValidAccessToken none now = TokenAction.noCredential) ∧
    (∀ (c : OuraConnectionRow) (e now : Int),
       c.expires_at_ms = some e → e - TOKEN_EXPIRY_BUFFER_MS > now →
       getValidAccessToken (some c) now = TokenAction.useStored c.access_token) := by
  refine ⟨fun now => rfl, fun c e now he h => ?_⟩
  simp [getValidAccessToken, he, h]

/-- Witness for C5 at a concrete credential expiring well in the future. -/
theorem getValidAccessToken_contract_witness :
    getValidAccessToken none 0 = TokenAction.noCredential ∧
    getValidAccessToken (some ⟨"tok", "ref", some 1000000⟩) 0 =
      TokenAction.useStored "tok" :=
  ⟨getValidAccessToken_contract.1 0,
   getValidAccessToken_contract.2 ⟨"tok", "ref", some 1000000⟩ 1000000 0 rfl
     (by norm_num [TOKEN_EXPIRY_BUFFER_MS])⟩

/-- C10: a stored credential whose `expires_at` does not parse to a finite
timestamp is returned as-is at every instant — never treated as expired,
never refreshed, never revoked. -/
theorem getValidAccessToken_corrupt_expiry :
    ∀ (c : OuraConnectionRow) (now : Int), c.expires_at_ms = none →
      getValidAccessToken (some c) now = TokenAction.useStored c.access_token := by
  intro c now h
  simp [getValidAccessToken, h]

/-- Witness for C10 at a concrete corrupt credential. -/
theorem getValidAccessToken_corrupt_expiry_witness :
    getValidAccessToken (some ⟨"tok", "ref", none⟩) 123 = TokenAction.useStored "tok" :=
  getValidAccessToken_corrupt_expiry ⟨"tok", "ref", none⟩ 123 rfl

/-- C9: a daily-stress row whose qualitative state normalizes to
"Stressed" but whose computed stressed-duration is zero is reported with
`stressedHours = 0.1`, the engaged/relaxed/restored buckets passing through
unchanged. -/
theorem summarizeStressToday_stressed_floor :
    ∀ row : Row, directStateOf row = some "Stressed" → stressedHoursOf row = 0 →
      summarizeStressToday (some row) =
        some { date := dateField row
               stressedHours := 1/10
               engagedHours := engagedHoursOf row
               relaxedHours := relaxedHoursOf row
               restoredHours := restoredHoursOf row } := by
  intro row h1 h2
  simp [summarizeStressToday, h1, h2]

/-- Witness for C9: a row with `stress_state = "stressed"` and
`high_stress_minutes = 0` yields `stressedHours = 0.1`. -/
theorem summarizeStressToday_stressed_floor_witness :
    summarizeStressToday (some [("day", JVal.str "2026-02-08" none),
        ("stress_state", JVal.str "stressed" none),
        ("high_stress_minutes", JVal.num 0)]) =
      some { date := some (JVal.str "2026-02-08" none)
             stressedHours := 1/10
             engagedHours := 0
             relaxedHours := 0
             restoredHours := 0 } := by
  rw [summarizeStressToday_stressed_floor _ (by decide) (by decide)]
  rfl

/-- The clamp `Math.max(30, Math.min(220, Number(x) || 0))` always lands in
`[30, 220]`. -/
theorem clampBpm_bounds (x : Option ℚ) : 30 ≤ clampBpm x ∧ clampBpm x ≤ 220 := by
  unfold clampBpm
  refine ⟨le_max_left _ _, max_le (by norm_num) (min_le_left _ _)⟩

/-- Hence the `!baseline || !peak || !average` rejection is unreachable. -/
theorem clampBpm_ne_zero (x : Option ℚ) : clampBpm x ≠ 0 := by
  intro h
  have h30 := (clampBpm_bounds x).1
  rw [h] at h30
  norm_num at h30

/-- C1 (counterexample): a submission with `baselineBpm = 300` (outside
`[30, 220]`) and `sessionEndedAt = 0` strictly before
`sessionStartedAt = 1000` is not rejected — `saveFocusTelemetry` accepts it,
silently clamping the baseline to 220. -/
theorem saveFocusTelemetry_accepts_out_of_range :
    (saveFocusTelemetry defaultProfile
        ⟨some 1000, some 0, some 300, some 100, some 100, some 0⟩).isOk = true ∧
    ((saveFocusTelemetry defaultProfile
        ⟨some 1000, some 0, some 300, some 100, some 100, some 0⟩).toOption.map
      (fun r => r.1.baseline_bpm)) = some 220 ∧
    ¬ ((300 : ℚ) ≤ 220) ∧ ((0 : Int) < 1000) := by
  refine ⟨rfl, rfl, by norm_num, by norm_num⟩

/-- C1 (amended): `saveFocusTelemetry` rejects exactly the submissions with
an unparsable session timestamp; out-of-range bpm values are clamped into
`[30, 220]` rather than rejected, and no start/end ordering check is made;
on any rejection the stored FocusProfile is left unchanged. -/
theorem saveFocusTelemetry_reject_contract :
    ∀ (store : OuraFocusProfile) (input : FocusTelemetryInput),
      ((saveFocusTelemetry store input).isOk = false ↔
        input.sessionStartedAt_ms = none ∨ input.sessionEndedAt_ms = none) ∧
      (∀ (row : FocusTelemetryRow) (upsert : FocusProfileUpsert),
        saveFocusTelemetry store input = .ok (row, upsert) →
        30 ≤ row.baseline_bpm ∧ row.baseline_bpm ≤ 220 ∧
        30 ≤ row.peak_rolling_bpm ∧ row.peak_rolling_bpm ≤ 220 ∧
        30 ≤ row.avg_rolling_bpm ∧ row.avg_rolling_bpm ≤ 220) ∧
      (∀ e, saveFocusTelemetry store input = .error e →
        runSaveFocusTelemetry store input = (store, .error e)) := by
  intro store input
  have h1 := clampBpm_ne_zero input.baselineBpm
  have h2 := clampBpm_ne_zero input.peakRollingBpm
  have h3 := clampBpm_ne_zero input.avgRollingBpm
  have hsave : saveFocusTelemetry store input =
      match input.sessionStartedAt_ms, input.sessionEndedAt_ms with
      | some startedAt, some endedAt =>
        .ok ({ session_started_at := startedAt
               session_ended_at := endedAt
               baseline_bpm := clampBpm input.baselineBpm
               peak_rolling_bpm := clampBpm input.peakRollingBpm
               avg_rolling_bpm := clampBpm input.avgRollingBpm
               alert_windows := max 0 ⌊input.alertWindows.getD 0⌋ },
             updateFocusProfile store (clampBpm input.baselineBpm)
               (clampBpm input.peakRollingBpm))
      | _, _ => .error "Invalid session timestamps" := by
    unfold saveFocusTelemetry
    rw [if_neg]
    push_neg
    exact ⟨h1, h2, h3⟩
  refine ⟨?_, ?_, ?_⟩
  · rcases hs : input.sessionStartedAt_ms with _ | s <;>
      rcases he : input.sessionEndedAt_ms with _ | e <;>
      simp [hsave, hs, he, Except.isOk, Except.toBool]
  · intro row upsert hok
    rw [hsave] at hok
    rcases hs : input.sessionStartedAt_ms with _ | s <;>
      rcases he : input.sessionEndedAt_ms with _ | e <;>
      rw [hs, he] at hok <;> simp at hok
    have hrow : row = { session_started_at := s
                        session_ended_at := e
                        baseline_bpm := clampBpm input.baselineBpm
                        peak_rolling_bpm := clampBpm input.peakRollingBpm
                        avg_rolling_bpm := clampBpm input.avgRollingBpm
                        alert_windows := max 0 ⌊input.alertWindows.getD 0⌋ } := hok.1.symm
    subst hrow
    exact ⟨(clampBpm_bounds _).1, (clampBpm_bounds _).2,
           (clampBpm_bounds _).1, (clampBpm_bounds _).2,
           (clampBpm_bounds _).1, (clampBpm_bounds _).2⟩
  · intro e herr
    unfold runSaveFocusTelemetry
    rw [herr]

/-- Witness for C1 (amended): a rejection (unparsable start timestamp)
leaves the stored profile untouched. -/
theorem saveFocusTelemetry_reject_contract_witness :
    runSaveFocusTelemetry defaultProfile ⟨none, some 0, some 70, some 80, some 75, some 0⟩ =
      (defaultProfile, .error "Invalid session timestamps") :=
  (saveFocusTelemetry_reject_contract defaultProfile
    ⟨none, some 0, some 70, some 80, some 75, some 0⟩).2.2
    "Invalid session timestamps" rfl

/-- C6: the profile learner's update rule — `sampleCount` advances by
exactly one; a first session (`sampleCount = 0`) initializes baseline and
drift from the session (weight 1), later sessions blend with weight `0.2`;
either way the result is rounded to one decimal and the stored drift is
floored at 4 bpm; reading the upserted row back yields
`sampleCount = previous + 1`. -/
theorem profile_ema_update :
    ∀ (existing : OuraFocusProfile) (baseline peak : ℚ),
      ((updateFocusProfile existing baseline peak).sample_count = existing.sampleCount + 1) ∧
      (existing.sampleCount = 0 →
        (updateFocusProfile existing baseline peak).baseline_median_bpm = round1 baseline ∧
        (updateFocusProfile existing baseline peak).typical_drift_bpm =
          max 4 (round1 (max 0 (peak - baseline)))) ∧
      (existing.sampleCount > 0 →
        ∀ eb ed : ℚ, existing.baselineMedianBpm = some eb →
          existing.typicalDriftBpm = some ed →
          (updateFocusProfile existing baseline peak).baseline_median_bpm =
            round1 (eb * (1 - 2/10) + baseline * (2/10)) ∧
          (updateFocusProfile existing baseline peak).typical_drift_bpm =
            max 4 (round1 (ed * (1 - 2/10) + max 0 (peak - baseline) * (2/10)))) ∧
      (∀ p : OuraFocusProfile,
        getFocusProfile (.ok (some (profileRowOfUpsert
          (updateFocusProfile existing baseline peak)))) = .ok p →
        p.sampleCount = existing.sampleCount + 1) := by
  intro existing baseline peak
  refine ⟨rfl, ?_, ?_, ?_⟩
  · intro h0
    have hw : ¬ existing.sampleCount > 0 := by rw [h0]; norm_num
    constructor
    · show round1 (existing.baselineMedianBpm.getD baseline *
        (1 - if existing.sampleCount > 0 then 2/10 else 1) +
        baseline * (if existing.sampleCount > 0 then 2/10 else 1)) = round1 baseline
      rw [if_neg hw]
      congr 1
      ring
    · show max 4 (round1 ((existing.typicalDriftBpm.getD (max 6 (max 0 (peak - baseline)))) *
        (1 - if existing.sampleCount > 0 then 2/10 else 1) +
        max 0 (peak - baseline) * (if existing.sampleCount > 0 then 2/10 else 1))) =
        max 4 (round1 (max 0 (peak - baseline)))
      rw [if_neg hw]
      congr 2
      ring
  · intro hpos eb ed heb hed
    constructor
    · show round1 (existing.baselineMedianBpm.getD baseline *
        (1 - if existing.sampleCount > 0 then 2/10 else 1) +
        baseline * (if existing.sampleCount > 0 then 2/10 else 1)) =
        round1 (eb * (1 - 2/10) + baseline * (2/10))
      rw [if_pos hpos, heb]
      rfl
    · show max 4 (round1 ((existing.typicalDriftBpm.getD (max 6 (max 0 (peak - baseline)))) *
        (1 - if existing.sampleCount > 0 then 2/10 else 1) +
        max 0 (peak - baseline) * (if existing.sampleCount > 0 then 2/10 else 1))) =
        max 4 (round1 (ed * (1 - 2/10) + max 0 (peak - baseline) * (2/10)))
      rw [if_pos hpos, hed]
      rfl
  · intro p hp
    simp [getFocusProfile, profileRowOfUpsert, numOrZero] at hp
    rw [← hp]
    rfl

/-- Witness for C6 at a learned profile `(baseline 70, drift 6, 3 samples)`
blending a session with baseline 80, peak 90. -/
theorem profile_ema_update_witness :
    (updateFocusProfile ⟨some 70, some 6, 3⟩ 80 90).sample_count = 3 + 1 ∧
    (updateFocusProfile ⟨some 70, some 6, 3⟩ 80 90).baseline_median_bpm =
      round1 (70 * (1 - 2/10) + 80 * (2/10)) :=
  ⟨(profile_ema_update ⟨some 70, some 6, 3⟩ 80 90).1,
   ((profile_ema_update ⟨some 70, some 6, 3⟩ 80 90).2.2.1 (by norm_num) 70 6 rfl rfl).1⟩

/-- C7: inside an active focus run, a first elevated window (counter 0)
moves the signal to `slow_down` with counter 1 and no auto-pause; a second
consecutive elevated window past the cooldown moves the signal to
`take_break`, fires auto-pause (stopping the run) and pushes the cooldown
10 minutes out; while `now` has not passed the cooldown no elevated window
can fire auto-pause (so the `take_break` firing cannot repeat within 10
minutes); and a window back under threshold during a run resets the counter
to 0 and the signal to `steady`. -/
theorem engine_two_window_autopause :
    (∀ (s : EngineState) (now : Int), s.running = true → s.consecutiveHighWindows = 0 →
      (engineStep s true now).1.focusSignal = .slow_down ∧
      (engineStep s true now).1.consecutiveHighWindows = 1 ∧
      (engineStep s true now).2 = false ∧
      (engineStep s true now).1.running = true ∧
      (engineStep s true now).1.nextRecoveryAlertAt = s.nextRecoveryAlertAt) ∧
    (∀ (s : EngineState) (now : Int), s.running = true → s.consecutiveHighWindows = 1 →
      now > s.nextRecoveryAlertAt →
      (engineStep s true now).1.focusSignal = .take_break ∧
      (engineStep s true now).2 = true ∧
      (engineStep s true now).1.running = false ∧
      (engineStep s true now).1.nextRecoveryAlertAt = now + 10 * 60 * 1000) ∧
    (∀ (s : EngineState) (now : Int), now ≤ s.nextRecoveryAlertAt →
      (engineStep s true now).2 = false) ∧
    (∀ (s : EngineState) (now : Int), s.running = true →
      (engineStep s false now).1.consecutiveHighWindows = 0 ∧
      (engineStep s false now).1.focusSignal = .steady ∧
      (engineStep s false now).2 = false) := by
  refine ⟨?_, ?_, ?_, ?_⟩
  · intro s now hr hc
    simp [engineStep, hr, hc]
  · intro s now hr hc hnow
    have hgt : ¬ now ≤ s.nextRecoveryAlertAt := not_le.mpr hnow
    simp [engineStep, hr, hc, hnow]
  · intro s now hle
    have hgt : ¬ now > s.nextRecoveryAlertAt := not_lt.mpr hle
    rcases hr : s.running with _ | _
    · simp [engineStep, hr]
    · simp [engineStep, hr, hgt]
  · intro s now hr
    simp [engineStep, hr]

/-- Witness for C7: a concrete two-elevated-window trace starting from a
steady active run fires auto-pause on the second window only, and a third
elevated window inside the 10-minute cooldown does not fire. -/
theorem engine_two_window_autopause_witness :
    (engineStep ⟨true, 0, .steady, 0, 0⟩ true 100).1.focusSignal = .slow_down ∧
    (engineStep ⟨true, 0, .steady, 0, 0⟩ true 100).2 = false ∧
    (engineStep ⟨true, 1, .slow_down, 0, 1⟩ true 100).2 = true ∧
    (engineStep ⟨false, 2, .take_break, 600100, 2⟩ true 200).2 = false ∧
    (engineStep ⟨true, 2, .take_break, 600100, 2⟩ true 600100).2 = false ∧
    (engineStep ⟨true, 1, .slow_down, 0, 1⟩ false 100).1.focusSignal = .steady :=
  ⟨(engine_two_window_autopause.1 ⟨true, 0, .steady, 0, 0⟩ 100 rfl rfl).1,
   (engine_two_window_autopause.1 ⟨true, 0, .steady, 0, 0⟩ 100 rfl rfl).2.2.1,
   (engine_two_window_autopause.2.1 ⟨true, 1, .slow_down, 0, 1⟩ 100 rfl rfl
     (by norm_num)).2.1,
   engine_two_window_autopause.2.2.1 ⟨false, 2, .take_break, 600100, 2⟩ 200 (by norm_num),
   engine_two_window_autopause.2.2.1 ⟨true, 2, .take_break, 600100, 2⟩ 600100 (by norm_num),
   (engine_two_window_autopause.2.2.2 ⟨true, 1, .slow_down, 0, 1⟩ 100 rfl).2.1⟩

/-- A `none` lookup means no stored binding for the user. -/
theorem lookupLock_none_iff (s : RefreshLocksState) (u : String) :
    lookupLock s u = none ↔ ∀ p ∈ s.locks, p.1 ≠ u := by
  simp [lookupLock, List.find?_eq_none]

/-- A caller never duplicates a map key: the lock-map keys stay distinct. -/
theorem refreshCall_keys_nodup (s : RefreshLocksState) (u : String)
    (h : (s.locks.map Prod.fst).Nodup) :
    (((refreshCall s u).1).locks.map Prod.fst).Nodup := by
  unfold refreshCall
  rcases hl : lookupLock s u with _ | op
  · simp only []
    refine List.Nodup.cons ?_ h
    intro hmem
    rcases List.mem_map.mp hmem with ⟨p, hp, hpu⟩
    exact ((lookupLock_none_iff s u).mp hl p hp) hpu
  · simpa using h

/-- Settling only removes entries, so key distinctness is preserved. -/
theorem refreshSettle_keys_nodup (s : RefreshLocksState) (u : String)
    (h : (s.locks.map Prod.fst).Nodup) :
    ((refreshSettle s u).locks.map Prod.fst).Nodup :=
  List.Nodup.sublist ((List.filter_sublist s.locks).map Prod.fst) h

/-- Along every event sequence from the empty map, keys stay distinct. -/
theorem runRefreshEvents_keys_nodup :
    ∀ (evs : List RefreshEvent) (s : RefreshLocksState),
      (s.locks.map Prod.fst).Nodup →
      ((runRefreshEvents s evs).locks.map Prod.fst).Nodup := by
  intro evs
  induction evs with
  | nil => exact fun s h => h
  | cons ev rest ih =>
    intro s h
    cases ev with
    | call u => exact ih _ (refreshCall_keys_nodup s u h)
    | settle u => exact ih _ (refreshSettle_keys_nodup s u h)

/-- While a refresh is in flight for a user, further callers attach to it
and change nothing. -/
theorem repeatCalls_locked (s : RefreshLocksState) (u : String) (op : Nat)
    (h : lookupLock s u = some op) :
    ∀ n, repeatCalls s u n = (s, List.replicate n op) := by
  intro n
  induction n with
  | zero => rfl
  | succ m ih =>
    have hcall : refreshCall s u = (s, op) := by unfold refreshCall; rw [h]
    simp [repeatCalls, hcall, ih, List.replicate_succ]

/-- C3: single-flight refresh.  (1) Along every sequence of call/settle
events from the initial empty map, the lock map holds at most one entry per
user (distinct keys), i.e. at most one refresh operation is outstanding per
user at any time.  (2) A burst of `n ≥ 1` back-to-back callers for a user
with no refresh in flight issues exactly one vendor request, every caller
receiving the same operation.  (3) Settlement removes the user's map entry
(the `finally` runs on success and failure alike). -/
theorem refresh_single_flight :
    (∀ evs : List RefreshEvent,
      ((runRefreshEvents initialRefreshState evs).locks.map Prod.fst).Nodup) ∧
    (∀ (s : RefreshLocksState) (u : String) (n : Nat),
      lookupLock s u = none → 1 ≤ n →
      (repeatCalls s u n).1.netCalls = s.netCalls + 1 ∧
      (repeatCalls s u n).2 = List.replicate n s.nextOp) ∧
    (∀ (s : RefreshLocksState) (u : String),
      lookupLock (refreshSettle s u) u = none) := by
  refine ⟨?_, ?_, ?_⟩
  · intro evs
    exact runRefreshEvents_keys_nodup evs initialRefreshState (by simp [initialRefreshState])
  · intro s u n h hn
    match n, hn with
    | m + 1, _ =>
      have hcall : refreshCall s u =
          ({ locks := (u, s.nextOp) :: s.locks
             nextOp := s.nextOp + 1
             netCalls := s.netCalls + 1 }, s.nextOp) := by
        unfold refreshCall
        rw [h]
      have hlocked : lookupLock (refreshCall s u).1 u = some s.nextOp := by
        rw [hcall]
        simp [lookupLock, List.find?]
      have hrest := repeatCalls_locked (refreshCall s u).1 u s.nextOp hlocked m
      rw [hcall] at hrest
      constructor
      · show (repeatCalls s u (m + 1)).1.netCalls = s.netCalls + 1
        simp [repeatCalls, hrest, hcall]
      · show (repeatCalls s u (m + 1)).2 = List.replicate (m + 1) s.nextOp
        simp [repeatCalls, hrest, hcall, List.replicate_succ]
  · intro s u
    simp [lookupLock, refreshSettle, List.find?_eq_none, List.mem_filter]

/-- Witness for C3: three concurrent callers from the initial state issue
one vendor request and all await operation 0. -/
theorem refresh_single_flight_witness :
    (repeatCalls initialRefreshState "u" 3).1.netCalls = 0 + 1 ∧
    (repeatCalls initialRefreshState "u" 3).2 = List.replicate 3 0 :=
  refresh_single_flight.2.1 initialRefreshState "u" 3 rfl (by norm_num)

/-- The only error `getFocusProfile` lets through is a non-missing-table
database error, returned verbatim. -/
theorem getFocusProfile_error (dbRes : Except DbError (Option OuraFocusProfileRow))
    (e : DbError) (h : getFocusProfile dbRes = .error e) :
    dbRes = .error e ∧ hasMissingTable e "oura_focus_profiles" = false := by
  rcases dbRes with e0 | (_ | row)
  · simp only [getFocusProfile] at h
    by_cases hm : hasMissingTable e0 "oura_focus_profiles" = true
    · rw [if_pos hm] at h
      exact absurd h (by simp)
    · rw [if_neg hm] at h
      cases h
      exact ⟨rfl, by simpa using hm⟩
  · exact absurd h (by simp [getFocusProfile])
  · exact absurd h (by simp [getFocusProfile])

/-- C4 (counterexample): when the `oura_focus_profiles` read fails with an
ordinary database error, `getOuraBiofeedback` rejects — it throws to its
caller instead of returning a degraded payload (the profile read sits
inside `Promise.all` with no catch). -/
theorem getOuraBiofeedback_throws_on_profile_error :
    getOuraBiofeedback (.ok (some "t")) (.error ⟨"500", "boom"⟩) (.ok []) (.ok []) =
      (false, .error ⟨"500", "boom"⟩) := rfl

/-- C4 (amended): `getOuraBiofeedback` never throws except when the
focus-profile read fails with a database error other than a missing table
(which propagates verbatim); when token acquisition or refresh throws it
revokes the stored credential and returns `connected: false` with the
non-null warning string; a stored-credential miss returns `connected: false`
with no warning and no revocation. -/
theorem getOuraBiofeedback_degrades :
    ∀ (tokenRes : Except String (Option String))
      (profileDb : Except DbError (Option OuraFocusProfileRow))
      (hrRes stressRes : Except String (List Row)),
      (∀ e, (getOuraBiofeedback tokenRes profileDb hrRes stressRes).2 = .error e →
        profileDb = .error e ∧ hasMissingTable e "oura_focus_profiles" = false) ∧
      (∀ m, tokenRes = .error m →
        getOuraBiofeedback tokenRes profileDb hrRes stressRes =
          (true, .ok { connected := false, heartRateSamples := [],
                       latestHeartRate := none, latestHeartRateTime := none,
                       stressToday := none, profile := defaultProfile,
                       warning := some "Token refresh failed. Please reconnect Oura." })) ∧
      (tokenRes = .ok none →
        getOuraBiofeedback tokenRes profileDb hrRes stressRes =
          (false, .ok { connected := false, heartRateSamples := [],
                        latestHeartRate := none, latestHeartRateTime := none,
                        stressToday := none, profile := defaultProfile,
                        warning := none })) := by
  intro tokenRes profileDb hrRes stressRes
  rcases tokenRes with m0 | (_ | t)
  · refine ⟨?_, ?_, ?_⟩
    · intro e he
      exact absurd he (by simp [getOuraBiofeedback])
    · intro m hm
      rfl
    · intro hm
      exact Except.noConfusion hm
  · refine ⟨?_, ?_, ?_⟩
    · intro e he
      exact absurd he (by simp [getOuraBiofeedback])
    · intro m hm
      exact Except.noConfusion hm
    · intro hm
      rfl
  · refine ⟨?_, fun m hm => Except.noConfusion hm, fun hm => by cases hm⟩
    intro e he
    rcases hp : getFocusProfile profileDb with e0 | profile
    · unfold getOuraBiofeedback at he
      rw [hp] at he
      have he0 : e0 = e := by simpa using he
      rw [← he0]
      exact getFocusProfile_error profileDb e0 hp
    · unfold getOuraBiofeedback at he
      rw [hp] at he
      exact absurd he (by simp)

/-- Witness for C4 (amended): a thrown token refresh yields revocation and
the degraded disconnected payload with the reconnect warning. -/
theorem getOuraBiofeedback_degrades_witness :
    getOuraBiofeedback (.error "refresh blew up") (.ok none) (.ok []) (.ok []) =
      (true, .ok { connected := false, heartRateSamples := [],
                   latestHeartRate := none, latestHeartRateTime := none,
                   stressToday := none, profile := defaultProfile,
                   warning := some "Token refresh failed. Please reconnect Oura." }) :=
  (getOuraBiofeedback_degrades (.error "refresh blew up") (.ok none)
    (.ok []) (.ok [])).2.1 "refresh blew up" rfl

/-- Loop invariants of the pagination loop: starting at `page` with fuel
`MAX_PAGES - page`, the loop fetches at least one more page, never exceeds
`MAX_PAGES` pages, stops exactly at the ceiling or at a falsy continuation
token, sees a truthy token on every non-final fetched page, and returns the
accumulator extended with the fetched pages' data in order. -/
theorem paginateGo_spec {α : Type} (vendor : Nat → Page α) :
    ∀ (fuel page : Nat) (acc : List α),
      page + fuel = MAX_PAGES → page < MAX_PAGES →
      page < (paginateGo vendor fuel page acc).2 ∧
      (paginateGo vendor fuel page acc).2 ≤ MAX_PAGES ∧
      ((paginateGo vendor fuel page acc).2 = MAX_PAGES ∨
        coerceToken (vendor (paginateGo vendor fuel page acc).2).next_token = none) ∧
      (∀ i, page < i → i < (paginateGo vendor fuel page acc).2 →
        coerceToken (vendor i).next_token ≠ none) ∧
      (paginateGo vendor fuel page acc).1 =
        acc ++ pagesSlice vendor (page + 1) ((paginateGo vendor fuel page acc).2 - page) := by
  intro fuel
  induction fuel with
  | zero =>
    intro page acc h hlt
    exact absurd hlt (by omega)
  | succ fuel ih =>
    intro page acc h hlt
    by_cases hc : (coerceToken (vendor (page + 1)).next_token).isSome ∧ page + 1 < MAX_PAGES
    · have hgo : paginateGo vendor (fuel + 1) page acc =
          paginateGo vendor fuel (page + 1) (acc ++ (vendor (page + 1)).data.getD []) := by
        simp only [paginateGo]
        rw [if_pos hc]
      obtain ⟨ih1, ih2, ih3, ih4, ih5⟩ :=
        ih (page + 1) (acc ++ (vendor (page + 1)).data.getD []) (by omega) hc.2
      rw [hgo]
      refine ⟨by omega, ih2, ih3, ?_, ?_⟩
      · intro i hi1 hi2
        by_cases hieq : i = page + 1
        · subst hieq
          intro hnone
          rw [hnone] at hc
          simp at hc
        · exact ih4 i (by omega) hi2
      · rw [ih5]
        have hsub : (paginateGo vendor fuel (page + 1)
              (acc ++ (vendor (page + 1)).data.getD [])).2 - page =
            ((paginateGo vendor fuel (page + 1)
              (acc ++ (vendor (page + 1)).data.getD [])).2 - (page + 1)) + 1 := by
          omega
        rw [hsub]
        simp [pagesSlice]
    · have hgo : paginateGo vendor (fuel + 1) page acc =
          (acc ++ (vendor (page + 1)).data.getD [], page + 1) := by
        simp only [paginateGo]
        rw [if_neg hc]
      rw [hgo]
      refine ⟨by omega, ?_, ?_, ?_, ?_⟩
      · show page + 1 ≤ MAX_PAGES
        omega
      · show page + 1 = MAX_PAGES ∨ coerceToken (vendor (page + 1)).next_token = none
        rcases not_and_or.mp hc with htok | hpage
        · right
          exact Option.not_isSome_iff_eq_none.mp (by simpa using htok)
        · left
          omega
      · intro i hi1 hi2
        have : i < page + 1 := hi2
        exact absurd this (by omega)
      · show acc ++ (vendor (page + 1)).data.getD [] =
          acc ++ pagesSlice vendor (page + 1) (page + 1 - page)
        have hone : page + 1 - page = 1 := by omega
        rw [hone]
        simp [pagesSlice]

/-- C8 (counterexample): the fetcher also stops on a present, non-null
continuation token when it is the empty string (falsy in JavaScript): with
`emptyTokenVendor` it stops after page 1 — whose token is `some ""`, not
absent or null, with the 25-page ceiling not reached — and drops page 2's
data. -/
theorem fetch_stops_on_empty_token :
    fetchOuraCollectionPaginated emptyTokenVendor = ([1, 2], 1) ∧
    (emptyTokenVendor 1).next_token = some "" ∧
    (emptyTokenVendor 1).next_token ≠ none ∧
    (1 : Nat) ≠ MAX_PAGES ∧
    (emptyTokenVendor 2).data = some [3] := by
  refine ⟨rfl, rfl, by simp [emptyTokenVendor], by norm_num [MAX_PAGES], rfl⟩

/-- C8 (amended): the paginated fetcher requests pages sequentially,
stopping exactly when a page's continuation token is falsy (absent, null,
or the empty string) or the 25-page ceiling is reached, and its result is
the concatenation of all fetched pages' data arrays in fetch order. -/
theorem fetchOuraCollectionPaginated_contract :
    ∀ (α : Type) (vendor : Nat → Page α),
      1 ≤ (fetchOuraCollectionPaginated vendor).2 ∧
      (fetchOuraCollectionPaginated vendor).2 ≤ MAX_PAGES ∧
      ((fetchOuraCollectionPaginated vendor).2 = MAX_PAGES ∨
        coerceToken (vendor (fetchOuraCollectionPaginated vendor).2).next_token = none) ∧
      (∀ i, 1 ≤ i → i < (fetchOuraCollectionPaginated vendor).2 →
        coerceToken (vendor i).next_token ≠ none) ∧
      (fetchOuraCollectionPaginated vendor).1 =
        pagesSlice vendor 1 (fetchOuraCollectionPaginated vendor).2 := by
  intro α vendor
  obtain ⟨h1, h2, h3, h4, h5⟩ :=
    paginateGo_spec vendor MAX_PAGES 0 [] (by omega) (by norm_num [MAX_PAGES])
  exact ⟨h1, h2, h3, fun i hi1 hi2 => h4 i hi1 hi2, by simpa using h5⟩

/-- Witness for C8 (amended) on the concrete two-page vendor: the
non-final page's token is truthy and the result is pages 1-2 concatenated. -/
theorem fetchOuraCollectionPaginated_contract_witness :
    coerceToken (twoPageVendor 1).next_token ≠ none ∧
    (fetchOuraCollectionPaginated twoPageVendor).1 =
      pagesSlice twoPageVendor 1 (fetchOuraCollectionPaginated twoPageVendor).2 :=
  ⟨(fetchOuraCollectionPaginated_contract Nat twoPageVendor).2.2.2.1 1
      (by norm_num) (by decide),
   (fetchOuraCollectionPaginated_contract Nat twoPageVendor).2.2.2.2⟩

end PomoRank.Oura
